import Mathlib

set_option maxRecDepth 1000000

/-!
Shallow embedding of the Pharmacies-Review-Analysis data pipeline
(`src/utils.py`, `src/app.py`, `src/plots.py`) and proofs about it.

Conventions of the embedding:
* pandas DataFrames become `List`s of row structures;
* numeric columns become `Rat` (the Python floats of this pipeline are
  exact decimals, so `Rat` is faithful for every computation the claims
  touch); nullable cells become `Option`;
* fallible Python operations (negative-index lookups that can raise
  `IndexError`, division that can raise `ZeroDivisionError`) return
  `Option`, with `none` marking exactly the raising executions;
* `DataFrame.sort_values(by=k)` becomes a stable insertion sort keyed by
  the sorted column;
* Python string splitting and comparison are re-implemented by structural
  recursion on character lists, with the same semantics as `str.split`
  and `str.__lt__` (code-point lexicographic).
-/

/-! ## Generic list/sorting helpers -/

/-- `keyLe f a b` means `f a ≤ f b`: the ordering used by
`sort_values(by=f, ascending=True)`. -/
def keyLe {α β : Type} [LinearOrder β] (f : α → β) (a b : α) : Prop :=
  f a ≤ f b

instance {α β : Type} [LinearOrder β] (f : α → β) : DecidableRel (keyLe f) :=
  fun a b => inferInstanceAs (Decidable (f a ≤ f b))

instance {α β : Type} [LinearOrder β] (f : α → β) : IsTotal α (keyLe f) :=
  ⟨fun a b => le_total (f a) (f b)⟩

instance {α β : Type} [LinearOrder β] (f : α → β) : IsTrans α (keyLe f) :=
  ⟨fun _ _ _ h h' => le_trans h h'⟩

/-- `keyGe f a b` means `f b ≤ f a`: the ordering used by
`sort_values(by=f, ascending=False)`. -/
def keyGe {α β : Type} [LinearOrder β] (f : α → β) (a b : α) : Prop :=
  f b ≤ f a

instance {α β : Type} [LinearOrder β] (f : α → β) : DecidableRel (keyGe f) :=
  fun a b => inferInstanceAs (Decidable (f b ≤ f a))

instance {α β : Type} [LinearOrder β] (f : α → β) : IsTotal α (keyGe f) :=
  ⟨fun a b => (le_total (f b) (f a)).imp id id⟩

instance {α β : Type} [LinearOrder β] (f : α → β) : IsTrans α (keyGe f) :=
  ⟨fun _ _ _ h h' => le_trans h' h⟩

/-- `df.sort_values(by=f)` (ascending, stable). -/
def sortAsc {α β : Type} [LinearOrder β] (f : α → β) (l : List α) : List α :=
  List.insertionSort (keyLe f) l

/-- `df.sort_values(by=f, ascending=False)` (stable). -/
def sortDesc {α β : Type} [LinearOrder β] (f : α → β) (l : List α) : List α :=
  List.insertionSort (keyGe f) l

/-- First-occurrence de-duplication (the order `pandas` `unique`/`groupby`
sees the keys in), with an accumulator of already-seen values. -/
def dedupFirstAux {α : Type} [BEq α] (seen : List α) : List α → List α
  | [] => []
  | x :: xs =>
    if seen.contains x then dedupFirstAux seen xs
    else x :: dedupFirstAux (x :: seen) xs

/-- First-occurrence de-duplication. -/
def dedupFirst {α : Type} [BEq α] (l : List α) : List α :=
  dedupFirstAux [] l

/-! ## Python string primitives -/

/-- Python `str.split(', ')` on the character list: non-overlapping
left-to-right scan for the two-character separator. -/
def splitCommaSpaceAux : List Char → List (List Char)
  | [] => [[]]
  | ',' :: ' ' :: rest => [] :: splitCommaSpaceAux rest
  | c :: rest =>
    match splitCommaSpaceAux rest with
    | [] => [[c]]
    | t :: ts => (c :: t) :: ts

/-- Python `address.split(', ')`. -/
def splitCommaSpace (s : String) : List String :=
  (splitCommaSpaceAux s.toList).map (fun l => String.mk l)

/-- Python `str.split(' ')` on the character list. -/
def splitSpaceAux : List Char → List (List Char)
  | [] => [[]]
  | ' ' :: rest => [] :: splitSpaceAux rest
  | c :: rest =>
    match splitSpaceAux rest with
    | [] => [[c]]
    | t :: ts => (c :: t) :: ts

/-- Python `s.split(' ')`. -/
def splitSpace (s : String) : List String :=
  (splitSpaceAux s.toList).map (fun l => String.mk l)

/-- Python `s.split(' ')[-1]`: `str.split` never returns an empty list, so
the negative index never raises and the `getLastD` default is never used. -/
def lastSpaceToken (s : String) : String :=
  (splitSpace s).getLastD ""

/-- Code-point lexicographic `≤` on character lists: Python `str.__le__`. -/
def strLeb : List Char → List Char → Bool
  | [], _ => true
  | _ :: _, [] => false
  | a :: as, b :: bs =>
    if a.toNat < b.toNat then true
    else if b.toNat < a.toNat then false
    else strLeb as bs

/-- Python string `≤` as a proposition. -/
def strLe (a b : String) : Prop :=
  strLeb a.toList b.toList = true

instance : DecidableRel strLe :=
  fun a b => inferInstanceAs (Decidable (strLeb a.toList b.toList = true))

/-! ## Listings Normalizer (`src/utils.py`) -/

/-- `utils.py` line 38: `lambda x: "green" if x >= 100 else ("orange" if
x >= 50 else ("lightgray" if x >= 25 else "red"))`, applied to the (still
float) `totalReviews` column. -/
def markerColor (x : Rat) : String :=
  if 100 ≤ x then "green"
  else if 50 ≤ x then "orange"
  else if 25 ≤ x then "lightgray"
  else "red"

/-- `utils.adjusted_reviews` (lines 51-65), applied after
`totalReviews.astype(int)`. -/
def adjusted_reviews (review : Int) : String :=
  if 200 ≤ review then "More than 200"
  else if 100 < review ∧ review ≤ 200 then "100-200"
  else if 50 < review ∧ review ≤ 100 then "50 to 100"
  else "Up-to 50"

/-- `utils.py` line 41: `lambda x: x.split(', ')[-2].split(' ')[-1]`.
The Python negative index `[-2]` raises `IndexError` when the address has
fewer than 2 `", "`-separated segments; `none` marks exactly those raising
executions. -/
def extract_city (address : String) : Option String :=
  let segs := splitCommaSpace address
  if h : 2 ≤ segs.length then
    some (lastSpaceToken (segs.get ⟨segs.length - 2, by omega⟩))
  else none

/-- Python `float.__trunc__` as used by `Series.astype(int)`: truncation
toward zero. -/
def astypeInt (x : Rat) : Int :=
  if 0 ≤ x then ⌊x⌋ else ⌈x⌉

/-- `''.join(filter(str.isdigit, str(x)))` (`utils.py` line 84). -/
def keepDigits (s : String) : String :=
  String.mk (s.toList.filter Char.isDigit)

/-- A raw pharmacy listing row, before `pre_process_listings_data`.
Numeric columns are `Option Rat`: `none` is a null/NaN cell (absent in the
source or produced by `pd.to_numeric(errors='coerce')`). -/
structure RawListing where
  id : Option Rat
  name : String
  address : String
  contact : String
  averageRating : Option Rat
  totalReviews : Option Rat
  latitude : Option Rat
  longitude : Option Rat
  deriving DecidableEq, Repr

/-- A normalized pharmacy listing row, as produced by
`pre_process_listings_data`. -/
structure Listing where
  id : Rat
  name : String
  address : String
  contact : String
  averageRating : Rat
  totalReviews : Int
  latitude : Rat
  longitude : Rat
  markerColor : String
  city : String
  adjustedReview : String
  adjustedRating : Int
  deriving DecidableEq, Repr

/-- One row of `utils.pre_process_listings_data` (lines 27-48): numeric
coercion (`adjust_column_datatypes`), `fillna(0)`, `markerColor` from the
float `totalReviews`, `astype(int)`, `city`, `adjustedReview`,
`adjustedRating = int(averageRating // 1)`.  `none` marks the rows on
which the Python code raises (`IndexError` from the city extraction). -/
def normalizeListing (r : RawListing) : Option Listing :=
  match extract_city r.address with
  | none => none
  | some c =>
    some
      { id := r.id.getD 0
        name := r.name
        address := r.address
        contact := keepDigits r.contact
        averageRating := r.averageRating.getD 0
        totalReviews := astypeInt (r.totalReviews.getD 0)
        latitude := r.latitude.getD 0
        longitude := r.longitude.getD 0
        markerColor := markerColor (r.totalReviews.getD 0)
        city := c
        adjustedReview := adjusted_reviews (astypeInt (r.totalReviews.getD 0))
        adjustedRating := ⌊r.averageRating.getD 0⌋ }

/-- Row-wise normalization of the listings table; `none` as soon as one
row raises, like the Python `Series.apply`. -/
def normalizeListings : List RawListing → Option (List Listing)
  | [] => some []
  | r :: rs =>
    match normalizeListing r, normalizeListings rs with
    | some l, some ls => some (l :: ls)
    | _, _ => none

/-- `utils.pre_process_listings_data`: normalize every row, then
`sort_values(by='totalReviews')` ascending (line 45). -/
def pre_process_listings_data (rows : List RawListing) : Option (List Listing) :=
  (normalizeListings rows).map (sortAsc (fun l => l.totalReviews))

/-- Re-reading a normalized listing as raw input, for the round-trip
(idempotence) property: base columns carried over unchanged. -/
def listingToRaw (l : Listing) : RawListing :=
  { id := some l.id
    name := l.name
    address := l.address
    contact := l.contact
    averageRating := some l.averageRating
    totalReviews := some (l.totalReviews : Rat)
    latitude := some l.latitude
    longitude := some l.longitude }

/-! ## Reviews Normalizer (`src/utils.py` lines 88-125) -/

/-- A timestamp, with calendar fields and a time of day.  `pandas`
`Series.dt.date` keeps the calendar fields and drops the time of day. -/
structure DT where
  year : Nat
  month : Nat
  day : Nat
  hour : Nat
  minute : Nat
  deriving DecidableEq, Repr

/-- Chronological sort key of a timestamp (fields are calendar-bounded, so
this mixed radix is monotone in time). -/
def dtKey (d : DT) : Nat :=
  (((d.year * 13 + d.month) * 32 + d.day) * 24 + d.hour) * 60 + d.minute

/-- `Series.dt.date`: drop the time of day. -/
def dtDate (d : DT) : DT :=
  { d with hour := 0, minute := 0 }

/-- Two-digit zero padding used by `strftime` fields `%d` and `%m`. -/
def pad2 (n : Nat) : String :=
  if n < 10 then "0" ++ n.repr else n.repr

/-- `datetime.strftime("%d-%m-%Y")` (`utils.py` line 106). -/
def formatDate (d : DT) : String :=
  pad2 d.day ++ "-" ++ pad2 d.month ++ "-" ++ d.year.repr

/-- A raw review row before `pre_process_reviews`; `text`/`rating` may be
null, `datetime` is parseable (the code's `pd.to_datetime` would raise
otherwise and no claim touches that path). -/
structure RawReview where
  place_Name : String
  reviewer : String
  text : Option String
  rating : Option Rat
  datetime : DT
  deriving DecidableEq, Repr

/-- A normalized review row, as produced by `pre_process_reviews`. -/
structure Review where
  place_Name : String
  reviewer : String
  text : String
  rating : Rat
  datetime : DT
  date : String
  deriving DecidableEq, Repr

/-- One row of `utils.pre_process_reviews` (lines 88-108):
`text.astype(str)` turns a null cell into the literal string `"nan"`,
`rating` is coerced then zero-filled, `date` is the `%d-%m-%Y` rendering
of `datetime`. -/
def normalizeReview (r : RawReview) : Review :=
  { place_Name := r.place_Name
    reviewer := r.reviewer
    text := r.text.getD "nan"
    rating := r.rating.getD 0
    datetime := r.datetime
    date := formatDate r.datetime }

/-- `utils.pre_process_reviews`: normalize every row, then
`sort_values(by='datetime', ascending=True)` (line 107). -/
def pre_process_reviews (rows : List RawReview) : List Review :=
  sortAsc (fun r => dtKey r.datetime) (rows.map normalizeReview)

/-- Re-reading a normalized review as raw input, for the round-trip
(idempotence) property. -/
def reviewToRaw (v : Review) : RawReview :=
  { place_Name := v.place_Name
    reviewer := v.reviewer
    text := some v.text
    rating := some v.rating
    datetime := v.datetime }

/-! ## Sentiment Scorer (`src/utils.py` lines 187-234) -/

/-- The `rating → score` fallback table of
`utils.calculate_sentiment_score` (lines 207-217); `none` is the final
`return None` (line 218). -/
def fallback_rating (rating : Rat) : Option Rat :=
  if rating = 5 then some 1
  else if rating = 4 then some (1/2)
  else if rating = 3 then some 0
  else if rating = 2 then some (-(1/2))
  else if rating = 1 then some (-1)
  else none

/-- The row handed to `calculate_sentiment_score`: `text`, the `language`
column previously filled by `langid.classify`, and `rating`. -/
structure SentimentRow where
  text : String
  language : String
  rating : Rat
  deriving DecidableEq, Repr

/-- `utils.calculate_sentiment_score` (lines 187-218).  The three
third-party polarity analyzers (TextBlob, TextBlobDE, TextBlob with
PatternAnalyzer) are opaque parameters; everything else mirrors the
control flow of the source: a supported language returns its analyzer's
polarity directly (lines 198-204), and only otherwise is the
`len(text) == 0 or lang not in [...]` fallback (lines 206-217) reached. -/
def calculate_sentiment_score (analyzer_en analyzer_de analyzer_fr : String → Rat)
    (row : SentimentRow) : Option Rat :=
  if row.language ∈ (["en", "de", "fr"] : List String) then
    if row.language = "en" then some (analyzer_en row.text)
    else if row.language = "de" then some (analyzer_de row.text)
    else some (analyzer_fr row.text)
  else if row.text.length = 0 ∨ row.language ∉ (["en", "de", "fr"] : List String) then
    fallback_rating row.rating
  else none

/-! ## KPI scalars (`src/app.py` lines 323-340) -/

/-- `app.calculate_kpis`: `total_reviews = len(filtered)`,
`average_ratings = mean(rating)`,
`yearly_reviews_rate_percentage = total_reviews / total_years` where
`total_years` counts distinct years of `datetime`, and
`rating_ratio = average_ratings * total_reviews / len(reviews_data) * 100`.
The division by `total_years` is NOT guarded in the source: when the
filtered subset spans zero distinct years Python raises
`ZeroDivisionError`, modelled here by `none`. -/
def calculate_kpis (filtered : List Review) (reviews_data_len : Nat) :
    Option (Nat × Rat × Rat × Rat) :=
  let total_reviews := filtered.length
  let average_ratings := ((filtered.map (fun r => r.rating)).sum) / (filtered.length : Rat)
  let total_years := (dedupFirst (filtered.map (fun r => r.datetime.year))).length
  if total_years = 0 then none
  else
    some (total_reviews, average_ratings,
      (total_reviews : Rat) / (total_years : Rat),
      average_ratings * total_reviews / (reviews_data_len : Rat) * 100)

/-! ## View filters (`src/app.py`) -/

/-- `app.map_view` (lines 80-111): each multiselect filter is applied to
the working copy only when the user picked something. -/
def map_view_filter (data : List Listing)
    (name address city : List String) : List Listing :=
  let d1 := if name.isEmpty then data else data.filter (fun l => name.contains l.name)
  let d2 := if address.isEmpty then d1 else d1.filter (fun l => address.contains l.address)
  let d3 := if city.isEmpty then d2 else d2.filter (fun l => city.contains l.city)
  d3

/-- `app.map_view` as a state transition on the shared listings table:
the function starts from `data.copy()` (line 87), so the shared table is
returned unchanged alongside the filtered copy. -/
def map_view (data : List Listing) (name address city : List String) :
    List Listing × List Listing :=
  (map_view_filter data name address city, data)

/-- `app.filter_data` (lines 143-159): works on `data.copy()` (line 152);
`dropna` on the copy is a no-op here because a normalized `Listing` has no
null cells. -/
def filter_data (data : List Listing) (stars : List Int)
    (reviews : List String) (name : String) (city : List String) : List Listing :=
  let df := data
  let df := df.filter (fun l => stars.contains l.adjustedRating)
  let df := df.filter (fun l => reviews.contains l.adjustedReview)
  let df := df.filter (fun l => city.contains l.city)
  let df := if name ≠ "All" then df.filter (fun l => l.name == name) else df
  df

/-- `app.list_view`'s filtering as a state transition on the shared
listings table. -/
def list_view (data : List Listing) (stars : List Int)
    (reviews : List String) (name : String) (city : List String) :
    List Listing × List Listing :=
  (filter_data data stars reviews name city, data)

/-- `app.filter_reviews_data` (lines 281-297): boolean-mask filter by day
range and pharmacy name (the comparisons happen after line 268 truncated
`datetime` to dates).  The column projection and `to_datetime` re-cast of
the copy do not change the modelled fields. -/
def filter_reviews_data (reviews_data : List Review) (pharmacy : String)
    (start_date end_date : DT) : List Review :=
  reviews_data.filter (fun r =>
    decide (dtKey start_date ≤ dtKey r.datetime) &&
    decide (dtKey r.datetime ≤ dtKey end_date) &&
    (r.place_Name == pharmacy))

/-- `app.reviews_analysis` (lines 249-278) as a state transition on the
shared reviews table: line 268
(`reviews_data['datetime'] = reviews_data['datetime'].dt.date`) overwrites
the `datetime` column of the SHARED table with its date part before
filtering, so the returned shared table is the truncated one. -/
def reviews_analysis (reviews_data : List Review) (pharmacy : String)
    (start_date end_date : DT) : List Review × List Review :=
  let mutated := reviews_data.map (fun r => { r with datetime := dtDate r.datetime })
  (filter_reviews_data mutated pharmacy start_date end_date, mutated)

/-! ## Top performers (`src/plots.py` lines 221-239) -/

/-- A listings row as `plots.top_performing_places` consumes it;
`averageRating` may be null (the function starts with
`dropna(subset=["averageRating"])`). -/
structure TPRow where
  name : String
  averageRating : Option Rat
  totalReviews : Rat
  deriving DecidableEq, Repr

/-- One `groupby("name")` aggregate: mean `averageRating`, sum
`totalReviews`. -/
structure TPGroup where
  name : String
  averageRating : Rat
  totalReviews : Rat
  deriving DecidableEq, Repr

/-- A group with its derived `rank = averageRating / totalReviews * 100`
column. -/
structure RankedPlace where
  grp : TPGroup
  rank : Rat
  deriving DecidableEq, Repr

/-- `df.dropna(subset=["averageRating"])` (line 228). -/
def tp_dropna (df : List TPRow) : List TPGroup :=
  df.filterMap (fun r => r.averageRating.map (fun a => ⟨r.name, a, r.totalReviews⟩))

/-- `df.groupby("name").agg({"averageRating": "mean", "totalReviews":
"sum"})` (lines 229-232); `groupby` sorts the group keys ascending. -/
def groupby_name (rows : List TPGroup) : List TPGroup :=
  (List.insertionSort strLe (dedupFirst (rows.map (fun r => r.name)))).map (fun n =>
    let g := rows.filter (fun r => r.name == n)
    { name := n
      averageRating := ((g.map (fun r => r.averageRating)).sum) / (g.length : Rat)
      totalReviews := (g.map (fun r => r.totalReviews)).sum })

/-- `thresh = df["totalReviews"].mean()` (line 234), over the grouped
table. -/
def tp_thresh (grouped : List TPGroup) : Rat :=
  ((grouped.map (fun g => g.totalReviews)).sum) / (grouped.length : Rat)

/-- `plots.top_performing_places` (lines 228-238): dropna, group by name,
keep groups with `totalReviews >= thresh`, derive
`rank = averageRating / totalReviews * 100`, `sort_values(by="rank",
ascending=False)`, `head(30)`. -/
def top_performing_places (df : List TPRow) : List RankedPlace :=
  let grouped := groupby_name (tp_dropna df)
  let thresh := tp_thresh grouped
  let survivors := grouped.filter (fun g => decide (thresh ≤ g.totalReviews))
  let ranked := survivors.map (fun g => ⟨g, g.averageRating / g.totalReviews * 100⟩)
  (sortDesc (fun p => p.rank) ranked).take 30

/-- The same selection as the spec words it ("lower is better; top 30
retained"): sort the survivors ASCENDING by rank and keep the first 30,
so that the 30 lowest (best) scores survive.  Stated from the spec's
words, for comparison with `top_performing_places`. -/
def top_performing_places_spec (df : List TPRow) : List RankedPlace :=
  let grouped := groupby_name (tp_dropna df)
  let thresh := tp_thresh grouped
  let survivors := grouped.filter (fun g => decide (thresh ≤ g.totalReviews))
  let ranked := survivors.map (fun g => ⟨g, g.averageRating / g.totalReviews * 100⟩)
  (sortAsc (fun p => p.rank) ranked).take 30

/-! ## Star-rating label mapping (`src/utils.py` lines 165-184) -/

/-- `utils.get_star_ratings`: maps each UI star label to an integer
rating; note lines 180-181 send the 1-star label to `2` and the final
`else` (line 183) sends everything remaining — including the 2-star label
offered by the UI — to `1`. -/
def get_star_ratings (rating_list : List String) : List Int :=
  rating_list.map (fun star =>
    if star = "⭐ 5 😊" then 5
    else if star = "⭐ 4 🙂" then 4
    else if star = "⭐ 3 😕" then 3
    else if star = "⭐ 1 😑" then 2
    else 1)

/-! ## The spec's composite rank (§4.1 step 9), stated from the spec's
words for comparison with what `pre_process_listings_data` produces -/

/-- Rank of `v` inside the column `vals`, descending, ties sharing the
minimum rank: `1 +` the number of strictly greater values. -/
def rankDescMin (vals : List Rat) (v : Rat) : Nat :=
  (vals.filter (fun w => decide (v < w))).length + 1

/-- The spec's composite rank of a listing within a table: descending
min-rank of `totalReviews` plus descending min-rank of `averageRating`. -/
def specRank (tbl : List Listing) (l : Listing) : Nat :=
  rankDescMin (tbl.map (fun t => (t.totalReviews : Rat))) (l.totalReviews : Rat) +
  rankDescMin (tbl.map (fun t => t.averageRating)) l.averageRating

/-- The city as the spec words it (§4.1 step 6): split the address on
`", "`, take the second-to-last segment, split on whitespace, take the
last token.  Stated from the spec's words, for comparison with
`extract_city`. -/
def citySpec (address : String) : String :=
  let segs := splitCommaSpace address
  lastSpaceToken (segs.getD (segs.length - 2) "")

/-- Concrete review rows used to exercise `calculate_kpis` on a one-year
subset. -/
def c3_review_a : Review :=
  ⟨"P", "u", "good", 5, ⟨2023, 5, 2, 10, 3⟩, "02-05-2023"⟩

/-- Second concrete review row in the same year. -/
def c3_review_b : Review :=
  ⟨"P", "v", "ok", 5, ⟨2023, 7, 9, 8, 30⟩, "09-07-2023"⟩

/-- A concrete normalized review whose timestamp has a non-zero time of
day. -/
def c6_review : Review :=
  ⟨"P", "rev", "txt", 5, ⟨2023, 5, 2, 10, 3⟩, "02-05-2023"⟩

/-- A three-row listings table on which the output order of
`pre_process_listings_data` (ascending `totalReviews`) disagrees with the
spec's composite rank: the spec ranks of the output rows come out as
`[4, 4, 3]`. -/
def c4_rows : List RawListing :=
  [⟨some 1, "A", "A St 1, 1000 X", "1", some 5, some 1, some 0, some 0⟩,
   ⟨some 2, "B", "B St 2, 2000 Y", "2", some 1, some 2, some 0, some 0⟩,
   ⟨some 3, "C", "C St 3, 3000 Z", "3", some 1, some 3, some 0, some 0⟩]

/-- 31 single-listing groups named `"0"`..`"30"`, all with
`totalReviews = 10` (so every group passes the mean threshold) and
pairwise distinct ranks `averageRating/10*100`. -/
def c8_rows : List TPRow :=
  (List.range 31).map (fun k => ⟨(k : Nat).repr, some ((k : Nat) : Rat), 10⟩)

/-- Two listings whose `totalReviews` mean is 50: the group summing to 49
falls below the threshold. -/
def c8_witness_rows : List TPRow :=
  [⟨"a", some 5, 49⟩, ⟨"b", some 1, 51⟩]

/-- A concrete raw listings table for the round-trip witness. -/
def c9_listings_in : List RawListing :=
  [⟨some 1, "Ph", "Main St 5, 3000 Bern, Switzerland", "031-123", some 4,
    some 120, some 46, some 7⟩]

/-- The normalized form of `c9_listings_in`. -/
def c9_listings_out : List Listing :=
  [⟨1, "Ph", "Main St 5, 3000 Bern, Switzerland", "031123", 4, 120, 46, 7,
    "green", "Bern", "100-200", 4⟩]

/-- A concrete raw reviews table for the round-trip witness. -/
def c9_reviews_in : List RawReview :=
  [⟨"P", "u", some "good", some 5, ⟨2023, 5, 2, 10, 3⟩⟩,
   ⟨"P", "v", none, none, ⟨2021, 12, 31, 23, 59⟩⟩]

/-! ## Theorems -/

/-- C1 (corrected): for every address with at least 2 `", "`-separated
segments the derived city is the last space-separated token of the
second-to-last segment — but on the two-segment address
`"Main St 5, 3000 Bern"` that token is `"5"`, not `"Bern"` (the claim's
scenario needs a third segment, e.g.
`"Main St 5, 3000 Bern, Switzerland"`). -/
theorem c1_city_rule :
    (∀ address : String, 2 ≤ (splitCommaSpace address).length →
      extract_city address = some (citySpec address)) ∧
    extract_city "Main St 5, 3000 Bern" = some "5" := by
  constructor
  · intro address h
    unfold extract_city citySpec
    rw [dif_pos h]
    congr 1
    congr 1
    rw [List.getD_eq_getElem _ _ (by omega), List.get_eq_getElem]
  · decide

/-- C1 counterexample: the claim's scenario is false — the derived city
of `"Main St 5, 3000 Bern"` is `"5"`, not `"Bern"`. -/
theorem c1_counterexample :
    extract_city "Main St 5, 3000 Bern" = some "5" ∧
    extract_city "Main St 5, 3000 Bern" ≠ some "Bern" := by
  constructor <;> decide

/-- C1 witness: the rule instantiated on a concrete three-segment
address. -/
theorem c1_witness :
    2 ≤ (splitCommaSpace "Main St 5, 3000 Bern, Switzerland").length ∧
    extract_city "Main St 5, 3000 Bern, Switzerland" =
      some (citySpec "Main St 5, 3000 Bern, Switzerland") :=
  ⟨by decide, c1_city_rule.1 "Main St 5, 3000 Bern, Switzerland" (by decide)⟩

/-- C3 (code bug): `calculate_kpis` does NOT guard the
`total_reviews / total_years` division — on a filtered subset spanning
zero distinct years (the empty subset) the Python code raises
`ZeroDivisionError` (modelled by `none`) instead of reporting a "no data"
condition; on a subset spanning one year it returns the division. -/
theorem c3_zero_years_division :
    calculate_kpis [] 100 = none ∧
    calculate_kpis [c3_review_a, c3_review_b] 2 = some (2, 5, 2, 500) := by
  constructor
  · with_unfolding_all decide
  · with_unfolding_all decide

/-- C6 (corrected): the map-view and list-view filters operate on a copy
and return the shared listings table unchanged, but `reviews_analysis`
first overwrites the `datetime` column of the SHARED reviews table with
its date part (app.py line 268), so the shared reviews table after the
operation is the truncated table, not the original. -/
theorem c6_base_tables (data : List Listing) (reviews : List Review)
    (n a c : List String) (st : List Int) (rv : List String) (nm : String)
    (ct : List String) (ph : String) (sd ed : DT) :
    (map_view data n a c).2 = data ∧
    (list_view data st rv nm ct).2 = data ∧
    (reviews_analysis reviews ph sd ed).2 =
      reviews.map (fun r => { r with datetime := dtDate r.datetime }) :=
  ⟨rfl, rfl, rfl⟩

/-- C6 counterexample: on a review whose timestamp has a non-zero time of
day, the shared reviews table IS changed by the reviews-analysis
operation. -/
theorem c6_counterexample :
    (reviews_analysis [c6_review] "P" ⟨2023, 1, 1, 0, 0⟩ ⟨2024, 1, 1, 0, 0⟩).2 ≠
      [c6_review] := by
  decide

/-- C7 (code bug): on an address with fewer than 2 `", "`-separated
segments the city derivation raises `IndexError` (modelled by `none`) —
no MalformedAddress condition with a caller-supplied fallback label
exists in the code. -/
theorem c7_malformed_address_raises :
    extract_city "Bahnhofstrasse 1" = none ∧
    (normalizeListing ⟨some 1, "A", "Bahnhofstrasse 1", "1", some 5, some 10,
      some 0, some 0⟩) = none := by
  constructor <;> decide

/-- C10 (confirmed): `get_star_ratings` preserves length and maps the
5/4/3-star labels to 5/4/3, the 1-star label `"⭐ 1 😑"` to 2, and every
other string — including the UI's 2-star label `"⭐ 2 😒"` — to 1. -/
theorem c10_get_star_ratings :
    (∀ l : List String, (get_star_ratings l).length = l.length) ∧
    get_star_ratings ["⭐ 5 😊", "⭐ 4 🙂", "⭐ 3 😕", "⭐ 2 😒", "⭐ 1 😑"] =
      [5, 4, 3, 1, 2] ∧
    (∀ s : String, s ≠ "⭐ 5 😊" → s ≠ "⭐ 4 🙂" → s ≠ "⭐ 3 😕" →
      s ≠ "⭐ 1 😑" → get_star_ratings [s] = [1]) := by
  refine ⟨fun l => List.length_map l _, by decide, ?_⟩
  intro s h5 h4 h3 h1
  simp [get_star_ratings, h5, h4, h3, h1]

/-- C10 witness: the mapping instantiated on concrete labels not among
the four special ones. -/
theorem c10_witness :
    get_star_ratings ["hello"] = [1] ∧ get_star_ratings ["⭐ 2 😒"] = [1] :=
  ⟨c10_get_star_ratings.2.2 "hello" (by decide) (by decide) (by decide) (by decide),
   c10_get_star_ratings.2.2 "⭐ 2 😒" (by decide) (by decide) (by decide) (by decide)⟩

/-- C2 counterexample: a review with empty text whose detected language
is `"en"` (what `langid.classify("")` reports) and rating 5.  The code
returns the English analyzer's polarity — `TextBlob("")` yields `0.0`,
modelled by the constant-zero analyzer — not the `1.0` the claim's
fallback table prescribes for rating 5, because the supported-language
branch returns before the `len(text) == 0` check is ever reached. -/
theorem c2_counterexample :
    calculate_sentiment_score (fun _ => 0) (fun _ => 0) (fun _ => 0)
      ⟨"", "en", 5⟩ = some 0 ∧
    fallback_rating 5 = some 1 ∧ some (0 : Rat) ≠ some (1 : Rat) := by
  refine ⟨by with_unfolding_all decide, by with_unfolding_all decide,
    by with_unfolding_all decide⟩

/-- C2 (corrected): the rating fallback applies exactly when the detected
language is outside {en, de, fr} (for a supported language the analyzer's
polarity is returned even on empty text), and the fallback table is
exact: 5→1.0, 4→0.5, 3→0.0, 2→−0.5, 1→−1.0, anything else → null. -/
theorem c2_fallback_table (aEn aDe aFr : String → Rat) (row : SentimentRow)
    (h : row.language ∉ (["en", "de", "fr"] : List String)) :
    calculate_sentiment_score aEn aDe aFr row = fallback_rating row.rating ∧
    fallback_rating 5 = some 1 ∧ fallback_rating 4 = some (1/2) ∧
    fallback_rating 3 = some 0 ∧ fallback_rating 2 = some (-(1/2)) ∧
    fallback_rating 1 = some (-1) ∧
    (∀ r : Rat, r ≠ 5 → r ≠ 4 → r ≠ 3 → r ≠ 2 → r ≠ 1 →
      fallback_rating r = none) := by
  refine ⟨?_, rfl, rfl, rfl, rfl, rfl, ?_⟩
  · unfold calculate_sentiment_score
    rw [if_neg h, if_pos (Or.inr h)]
  · intro r h5 h4 h3 h2 h1
    simp [fallback_rating, h5, h4, h3, h2, h1]

/-- C2 witness: the fallback rule instantiated on a concrete Italian
review with rating 4. -/
theorem c2_witness :
    calculate_sentiment_score (fun _ => 0) (fun _ => 0) (fun _ => 0)
      ⟨"ciao", "it", 4⟩ = fallback_rating 4 :=
  (c2_fallback_table (fun _ => 0) (fun _ => 0) (fun _ => 0)
    ⟨"ciao", "it", 4⟩ (by decide)).1

/-- C4 (code bug): `pre_process_listings_data` derives no `rank` column
and sorts ascending by `totalReviews`; on `c4_rows` the spec's composite
rank of the output rows is the sequence `[4, 4, 3]`, which is not sorted
ascending, so the output is not ordered by the spec's rank. -/
theorem c4_no_rank_column :
    ((pre_process_listings_data c4_rows).map (fun ys => ys.map (specRank ys))) =
      some [4, 4, 3] ∧
    ¬ List.Sorted (fun a b => a ≤ b) ([4, 4, 3] : List Nat) := by
  refine ⟨by with_unfolding_all decide, by decide⟩

/-- C5 (corrected): for every integer `totalReviews ≥ 0` both bucket
assignments are total with the stated boundaries, except that
`adjustedReview = "100-200"` holds iff `100 < n < 200` (strictly below
200): at exactly 200 the code returns `"More than 200"`, so the claim's
`100 < n ≤ 200` characterization is off at 200.  The scenario
`n = 75 → ("orange", "50 to 100")` holds. -/
theorem c5_buckets (n : Int) (hn : 0 ≤ n) :
    (markerColor (n : Rat) = "green" ↔ 100 ≤ n) ∧
    (markerColor (n : Rat) = "orange" ↔ 50 ≤ n ∧ n < 100) ∧
    (markerColor (n : Rat) = "lightgray" ↔ 25 ≤ n ∧ n < 50) ∧
    (markerColor (n : Rat) = "red" ↔ n < 25) ∧
    (adjusted_reviews n = "More than 200" ↔ 200 ≤ n) ∧
    (adjusted_reviews n = "100-200" ↔ 100 < n ∧ n < 200) ∧
    (adjusted_reviews n = "50 to 100" ↔ 50 < n ∧ n ≤ 100) ∧
    (adjusted_reviews n = "Up-to 50" ↔ n ≤ 50) ∧
    markerColor ((75 : Int) : Rat) = "orange" ∧
    adjusted_reviews 75 = "50 to 100" := by
  have h100 : ((100 : Rat) ≤ (n : Rat)) ↔ 100 ≤ n := by exact_mod_cast Iff.rfl
  have h50 : ((50 : Rat) ≤ (n : Rat)) ↔ 50 ≤ n := by exact_mod_cast Iff.rfl
  have h25 : ((25 : Rat) ≤ (n : Rat)) ↔ 25 ≤ n := by exact_mod_cast Iff.rfl
  have hmc : (markerColor (n : Rat) = "green" ↔ 100 ≤ n) ∧
      (markerColor (n : Rat) = "orange" ↔ 50 ≤ n ∧ n < 100) ∧
      (markerColor (n : Rat) = "lightgray" ↔ 25 ≤ n ∧ n < 50) ∧
      (markerColor (n : Rat) = "red" ↔ n < 25) := by
    simp only [markerColor, h100, h50, h25]
    split_ifs <;> simp <;> omega
  have har : (adjusted_reviews n = "More than 200" ↔ 200 ≤ n) ∧
      (adjusted_reviews n = "100-200" ↔ 100 < n ∧ n < 200) ∧
      (adjusted_reviews n = "50 to 100" ↔ 50 < n ∧ n ≤ 100) ∧
      (adjusted_reviews n = "Up-to 50" ↔ n ≤ 50) := by
    simp only [adjusted_reviews]
    split_ifs <;> simp <;> omega
  exact ⟨hmc.1, hmc.2.1, hmc.2.2.1, hmc.2.2.2, har.1, har.2.1, har.2.2.1,
    har.2.2.2, by with_unfolding_all decide, by decide⟩

/-- C5 counterexample: at exactly `totalReviews = 200` the code yields
`"More than 200"`, refuting the claim's `adjustedReview = "100-200" iff
100 < n ≤ 200` (200 satisfies the right side but not the left). -/
theorem c5_counterexample :
    adjusted_reviews 200 = "More than 200" ∧
    ¬ (adjusted_reviews 200 = "100-200" ↔ (100 < (200 : Int) ∧ (200 : Int) ≤ 200)) := by
  refine ⟨by decide, by decide⟩

/-- C5 witness: the bucket characterization instantiated at
`totalReviews = 75`. -/
theorem c5_witness :
    markerColor ((75 : Int) : Rat) = "orange" ∧ adjusted_reviews 75 = "50 to 100" :=
  (c5_buckets 75 (by decide)).2.2.2.2.2.2.2.2

/-- C8 counterexample: on `c8_rows` (31 groups, all passing the mean
threshold, pairwise distinct ranks) the code's descending sort plus
`head(30)` drops the group `"0"` with the LOWEST rank — the one the
claim's "lower is better, top 30 retained" reading keeps — and keeps the
group `"30"` with the highest rank. -/
theorem c8_counterexample :
    "0" ∉ (top_performing_places c8_rows).map (fun p => p.grp.name) ∧
    "0" ∈ (top_performing_places_spec c8_rows).map (fun p => p.grp.name) ∧
    "30" ∈ (top_performing_places c8_rows).map (fun p => p.grp.name) := by
  with_unfolding_all decide

/-- C8 (corrected): the top-performers operation groups by name (mean
rating, summed reviews), keeps only groups whose summed `totalReviews`
reaches the mean over all groups, ranks survivors by
`averageRating/totalReviews*100` sorted DESCENDING (higher value first)
and retains the first 30 of that order; at most 30 rows are returned and
every below-mean group is excluded regardless of rating. -/
theorem c8_top_performers (df : List TPRow) :
    (top_performing_places df).length ≤ 30 ∧
    List.Pairwise (keyGe (fun p : RankedPlace => p.rank)) (top_performing_places df) ∧
    (∀ g ∈ groupby_name (tp_dropna df),
      g.totalReviews < tp_thresh (groupby_name (tp_dropna df)) →
      ∀ p ∈ top_performing_places df, p.grp ≠ g) := by
  refine ⟨List.length_take_le 30 _, ?_, ?_⟩
  · exact List.Pairwise.sublist (List.take_sublist 30 _)
      (List.sorted_insertionSort _ _)
  · intro g hg hlt p hp hpg
    have hp1 : p ∈ sortDesc (fun q : RankedPlace => q.rank)
        (((groupby_name (tp_dropna df)).filter
            (fun g' => decide (tp_thresh (groupby_name (tp_dropna df)) ≤ g'.totalReviews))).map
          (fun g' => ⟨g', g'.averageRating / g'.totalReviews * 100⟩)) :=
      List.take_subset 30 _ hp
    rw [sortDesc] at hp1
    rw [List.mem_insertionSort] at hp1
    obtain ⟨g', hg', hpq⟩ := List.mem_map.1 hp1
    have hthresh := of_decide_eq_true (List.mem_filter.1 hg').2
    have hgrp : p.grp = g' := by rw [← hpq]
    have hgg : g' = g := by rw [← hgrp, hpg]
    rw [hgg] at hthresh
    exact absurd hthresh (not_le.mpr hlt)

/-- C8 witness: on the two-listing table with mean 50 the group summing
to 49 reviews is excluded from the result. -/
theorem c8_witness :
    (⟨⟨"a", 5, 49⟩, 5 / 49 * 100⟩ : RankedPlace) ∉
      top_performing_places c8_witness_rows := by
  intro hmem
  exact absurd rfl
    ((c8_top_performers c8_witness_rows).2.2 ⟨"a", 5, 49⟩
      (by with_unfolding_all decide) (by with_unfolding_all decide) _ hmem)

/-- Truncation toward zero of an integer value is the integer itself. -/
theorem astypeInt_intCast (m : Int) : astypeInt ((m : Int) : Rat) = m := by
  unfold astypeInt
  split_ifs with h
  · exact Int.floor_intCast m
  · exact Int.ceil_intCast m

/-- For a positive integer threshold, truncation toward zero does not
move a value across the threshold. -/
theorem intCast_le_astypeInt (t : Int) (ht : 0 < t) (x : Rat) :
    ((t : Rat) ≤ (astypeInt x : Rat)) ↔ ((t : Rat) ≤ x) := by
  unfold astypeInt
  split_ifs with h0
  · constructor
    · intro h
      exact le_trans h (Int.floor_le x)
    · intro h
      exact_mod_cast Int.le_floor.mpr h
  · have hx : x < 0 := lt_of_not_ge h0
    have hceil : ⌈x⌉ ≤ 0 := Int.ceil_le.mpr (by exact_mod_cast hx.le)
    constructor
    · intro h
      exfalso
      have h1 : (t : Rat) ≤ ((0 : Int) : Rat) := le_trans h (by exact_mod_cast hceil)
      have h2 : t ≤ 0 := by exact_mod_cast h1
      omega
    · intro h
      exfalso
      have h1 : (t : Rat) < 0 := lt_of_le_of_lt h hx
      have h2 : (0 : Rat) < (t : Rat) := by exact_mod_cast ht
      exact absurd h1 (not_lt.mpr h2.le)

/-- The marker colour of the truncated review count equals the marker
colour of the original float count (all thresholds are positive
integers). -/
theorem markerColor_astypeInt (x : Rat) :
    markerColor ((astypeInt x : Int) : Rat) = markerColor x := by
  have h100 := intCast_le_astypeInt 100 (by norm_num) x
  have h50 := intCast_le_astypeInt 50 (by norm_num) x
  have h25 := intCast_le_astypeInt 25 (by norm_num) x
  push_cast at h100 h50 h25
  simp only [markerColor, h100, h50, h25]

/-- Keeping only digit characters is idempotent. -/
theorem keepDigits_idem (s : String) : keepDigits (keepDigits s) = keepDigits s := by
  unfold keepDigits
  simp [List.filter_filter]

/-- Re-normalizing one already-normalized listing row reproduces it. -/
theorem normalizeListing_toRaw {r : RawListing} {y : Listing}
    (h : normalizeListing r = some y) :
    normalizeListing (listingToRaw y) = some y := by
  unfold normalizeListing at h
  cases hc : extract_city r.address with
  | none => rw [hc] at h; cases h
  | some c =>
    rw [hc] at h
    have hy := Option.some.inj h
    subst hy
    unfold normalizeListing listingToRaw
    simp [hc, astypeInt_intCast, markerColor_astypeInt, keepDigits_idem]

/-- Every row of a successfully normalized listings table is the image of
some raw row. -/
theorem normalizeListings_mem {rs : List RawListing} {ls : List Listing}
    (h : normalizeListings rs = some ls) :
    ∀ y ∈ ls, ∃ r, normalizeListing r = some y := by
  induction rs generalizing ls with
  | nil =>
    cases (Option.some.inj h)
    intro y hy
    cases hy
  | cons r rs ih =>
    unfold normalizeListings at h
    cases hr : normalizeListing r with
    | none => rw [hr] at h; cases h
    | some l =>
      rw [hr] at h
      cases hs : normalizeListings rs with
      | none => rw [hs] at h; cases h
      | some ls' =>
        rw [hs] at h
        cases (Option.some.inj h)
        intro y hy
        rcases List.mem_cons.1 hy with hyl | hyls
        · exact ⟨r, by rw [hr, hyl]⟩
        · exact ih hs y hyls

/-- If re-normalizing each row of `ys` reproduces it, row-wise
normalization of the re-read table succeeds with `ys` itself. -/
theorem normalizeListings_map_toRaw : ∀ {ys : List Listing},
    (∀ y ∈ ys, normalizeListing (listingToRaw y) = some y) →
    normalizeListings (ys.map listingToRaw) = some ys
  | [], _ => rfl
  | y :: ys, h => by
    simp only [List.map_cons]
    unfold normalizeListings
    rw [h y (List.mem_cons_self y ys),
      normalizeListings_map_toRaw (fun z hz => h z (List.mem_cons_of_mem y hz))]

/-- Mapping a function that fixes every member is the identity. -/
theorem map_eq_self_of_mem {α : Type} {f : α → α} : ∀ {l : List α},
    (∀ a ∈ l, f a = a) → l.map f = l
  | [], _ => rfl
  | a :: l, h => by
    rw [List.map_cons, h a (List.mem_cons_self a l),
      map_eq_self_of_mem (fun b hb => h b (List.mem_cons_of_mem a hb))]

/-- Sorting is idempotent (`insertionSort` of a sorted list is itself). -/
theorem sortAsc_idem {α β : Type} [LinearOrder β] (f : α → β) (l : List α) :
    sortAsc f (sortAsc f l) = sortAsc f l := by
  unfold sortAsc
  exact List.Sorted.insertionSort_eq (List.sorted_insertionSort _ _)

/-- C9 (confirmed): re-running each Normalizer on its own output changes
nothing — for listings the whole normalized table (hence every derived
column `markerColor`, `city`, `adjustedReview`, `adjustedRating`) is
reproduced, and likewise for reviews (hence the derived `date` column). -/
theorem c9_idempotent :
    (∀ (xs : List RawListing) (ys : List Listing),
      pre_process_listings_data xs = some ys →
      pre_process_listings_data (ys.map listingToRaw) = some ys) ∧
    (∀ rs : List RawReview,
      pre_process_reviews ((pre_process_reviews rs).map reviewToRaw) =
        pre_process_reviews rs) := by
  constructor
  · intro xs ys h
    unfold pre_process_listings_data at h ⊢
    cases hn : normalizeListings xs with
    | none => rw [hn] at h; cases h
    | some l0 =>
      rw [hn] at h
      have hys : sortAsc (fun l : Listing => l.totalReviews) l0 = ys :=
        Option.some.inj h
      have hmem : ∀ y ∈ ys, normalizeListing (listingToRaw y) = some y := by
        intro y hy
        have hy0 : y ∈ l0 := by
          rw [← hys] at hy
          simpa [sortAsc, List.mem_insertionSort] using hy
        obtain ⟨r, hr⟩ := normalizeListings_mem hn y hy0
        exact normalizeListing_toRaw hr
      rw [normalizeListings_map_toRaw hmem]
      show some (sortAsc (fun l : Listing => l.totalReviews) ys) = some ys
      rw [← hys, sortAsc_idem]
  · intro rs
    unfold pre_process_reviews
    have hkey : ∀ v ∈ sortAsc (fun r : Review => dtKey r.datetime)
        (rs.map normalizeReview),
        normalizeReview (reviewToRaw v) = v := by
      intro v hv
      have hv0 : v ∈ rs.map normalizeReview := by
        simpa [sortAsc, List.mem_insertionSort] using hv
      obtain ⟨r, _, rfl⟩ := List.mem_map.1 hv0
      rfl
    rw [List.map_map]
    rw [show ((sortAsc (fun r : Review => dtKey r.datetime) (rs.map normalizeReview)).map
        (normalizeReview ∘ reviewToRaw)) =
        sortAsc (fun r : Review => dtKey r.datetime) (rs.map normalizeReview) from
      map_eq_self_of_mem hkey]
    exact sortAsc_idem _ _

/-- C9 witness: the round trip instantiated on concrete listings and
reviews tables. -/
theorem c9_witness :
    pre_process_listings_data c9_listings_in = some c9_listings_out ∧
    pre_process_listings_data (c9_listings_out.map listingToRaw) = some c9_listings_out ∧
    pre_process_reviews ((pre_process_reviews c9_reviews_in).map reviewToRaw) =
      pre_process_reviews c9_reviews_in :=
  ⟨by with_unfolding_all decide,
   c9_idempotent.1 c9_listings_in c9_listings_out (by with_unfolding_all decide),
   c9_idempotent.2 c9_reviews_in⟩
